import Mathlib

/-!
Verification development for the `data_bridge` step-pipeline engine.

The definitions below are a shallow embedding of the relevant parts of the
repository (the latest-generation engine in `src/app/utils/datastream2.py`
together with `models.py`, `extractor.py`, `loader.py`, `macros.py`,
`errors.py`, and the aggregated validator in `src/app/utils/data_stream.py`).
External collaborators (SQL drivers, SFTP/SMB/SMTP transports, user-supplied
transform functions) are modelled as explicit parameters carrying the outcome
the collaborator would produce, exactly as the spec designates them external.
-/

namespace DataBridge

/-! ## Python string primitives

Helpers that mirror the Python string operations used by the source:
`startswith`, the `in` operator (contiguous-substring membership),
`str.replace` (replace all occurrences), `split(":", 1)[1]`, `endswith`. -/

/-- Python `s.startswith(p)`. -/
def strStartsWith (s p : String) : Bool :=
  p.toList.isPrefixOf s.toList

/-- Python `needle in hay` for strings: contiguous-substring membership. -/
def strIn (needle hay : String) : Bool :=
  (List.range (hay.toList.length + 1)).any fun i =>
    needle.toList.isPrefixOf (hay.toList.drop i)

/-- Python `s.endswith(p)`. -/
def strEndsWith (s p : String) : Bool :=
  p.toList.reverse.isPrefixOf s.toList.reverse

/-- Replace every occurrence of `pat` (non-overlapping, left to right) by `rep`,
as Python `str.replace` does for a non-empty pattern. The first argument is
fuel; each recursive call consumes at least one character of the input, so
fuel equal to the input length is always enough. -/
def pyReplaceChars (pat rep : List Char) : Nat → List Char → List Char
  | 0, l => l
  | _ + 1, [] => []
  | fuel + 1, c :: rest =>
    if pat.isPrefixOf (c :: rest) ∧ pat.length ≥ 1 then
      rep ++ pyReplaceChars pat rep fuel (rest.drop (pat.length - 1))
    else
      c :: pyReplaceChars pat rep fuel rest

/-- Python `s.replace(pat, rep)` (pattern non-empty in every use site). -/
def pyReplace (s pat rep : String) : String :=
  String.mk (pyReplaceChars pat.toList rep.toList s.toList.length s.toList)

/-- Python `s.split(":", 1)[1]`: everything after the first colon
(callers guard on a prefix that guarantees a colon is present). -/
def splitColonTail (s : String) : String :=
  match s.toList.dropWhile (fun c => c ≠ ':') with
  | [] => ""
  | _ :: t => String.mk t

/-! ## Python runtime values and exceptions -/

/-- The concrete runtime type of a `StreamData.content` value, one constructor
per member of the `Union[pd.DataFrame, Path, io.BytesIO, str, int, list, dict]`
annotation in `models.py`, plus `email.message.Message` (which the loader
expects but the union does not include). -/
inductive PyVal where
  | dataframeV (cols : List String) (rows : Nat)
  | pathV (p : String)
  | bytesV (bs : List Nat)
  | strV (s : String)
  | intV (n : Int)
  | listV (xs : List String)
  | dictV (kvs : List (String × String))
  | emailMessageV (raw : String)
  deriving DecidableEq, Repr

/-- Python `str(v)` for the values a macro can return (`macros.py` returns
either an `int` (SCHOOL_YEAR) or a `str` (YYYYMMDD)). -/
def pyStr : PyVal → String
  | .strV s => s
  | .intV n => toString n
  | .pathV p => p
  | _ => ""

/-- The exceptions the embedded code can raise. -/
inductive PyError where
  | keyError (k : String)
  | valueError (msg : String)
  | typeError (msg : String)
  | attributeError (msg : String)
  deriving DecidableEq, Repr

/-- The message text an operator would see for each exception
(for `KeyError` Python displays the missing key). -/
def pyErrMsg : PyError → String
  | .keyError k => k
  | .valueError m => m
  | .typeError m => m
  | .attributeError m => m

/-- Whether an exception is a `ValueError`. -/
def isValueErr : PyError → Bool
  | .valueError _ => true
  | _ => false

instance {ε α : Type} [DecidableEq ε] [DecidableEq α] : DecidableEq (Except ε α) :=
  fun a b =>
    match a, b with
    | .error e1, .error e2 =>
      if h : e1 = e2 then .isTrue (by rw [h])
      else .isFalse (fun hc => by cases hc; exact h rfl)
    | .ok v1, .ok v2 =>
      if h : v1 = v2 then .isTrue (by rw [h])
      else .isFalse (fun hc => by cases hc; exact h rfl)
    | .error _, .ok _ => .isFalse (fun hc => by cases hc)
    | .ok _, .error _ => .isFalse (fun hc => by cases hc)

/-! ## Insertion-ordered dictionaries (Python `dict`) as association lists -/

/-- Python `d.get(k)` / `d[k]` lookup. -/
def dictGet {α : Type} (d : List (String × α)) (k : String) : Option α :=
  match d with
  | [] => none
  | (k2, v) :: rest => if k2 = k then some v else dictGet rest k

/-- Python `d[k] = v`: replace in place if the key exists, else append. -/
def dictSet {α : Type} (d : List (String × α)) (k : String) (v : α) :
    List (String × α) :=
  match d with
  | [] => [(k, v)]
  | (k2, v2) :: rest =>
    if k2 = k then (k2, v) :: rest else (k2, v2) :: dictSet rest k v

/-- Python `d.update(u)`. -/
def dictUpdate {α : Type} (d u : List (String × α)) : List (String × α) :=
  u.foldl (fun acc p => dictSet acc p.1 p.2) d

/-! ## StreamData (`models.py`, class `StreamData`) -/

/-- The payload envelope. Construction in the source goes through pydantic
(`data_format` literal check, then the `check_content_type_matches_format`
model validator); `streamDataNew` below models that constructor. -/
structure StreamData where
  data_format : String
  content : PyVal
  file_name : Option String := none
  deriving DecidableEq, Repr

/-- The `Literal[...]` tag set of `StreamData.data_format` in `models.py`. -/
def streamDataFormats : List String :=
  ["dataframe", "file_path", "file_buffer", "python_string",
   "python_int", "python_list", "python_dict"]

/-- Whether `content` has the concrete runtime type named by the constructor
tag (`isinstance(content, io.BytesIO)` and so on). -/
def isBytesIO : PyVal → Bool | .bytesV _ => true | _ => false
def isDataFrame : PyVal → Bool | .dataframeV _ _ => true | _ => false
def isPathObj : PyVal → Bool | .pathV _ => true | _ => false
def isPyStr : PyVal → Bool | .strV _ => true | _ => false
def isPyInt : PyVal → Bool | .intV _ => true | _ => false
def isPyList : PyVal → Bool | .listV _ => true | _ => false
def isPyDict : PyVal → Bool | .dictV _ => true | _ => false

/-- `StreamData.check_content_type_matches_format`: the post-construction
model validator, a chain of format/isinstance checks each raising
`ValueError` on mismatch. -/
def checkContentTypeMatchesFormat (fmt : String) (c : PyVal) :
    Except PyError Unit :=
  if fmt = "file_buffer" ∧ ¬ isBytesIO c then
    .error (.valueError "For file_buffer, content must be of type io.BytesIO")
  else if fmt = "dataframe" ∧ ¬ isDataFrame c then
    .error (.valueError "For dataframe, content must be of type pd.DataFrame")
  else if fmt = "file_path" ∧ ¬ isPathObj c then
    .error (.valueError "For file_path, content must be of type pathlib.Path")
  else if fmt = "python_string" ∧ ¬ isPyStr c then
    .error (.valueError "For python_string, content must be of type str")
  else if fmt = "python_int" ∧ ¬ isPyInt c then
    .error (.valueError "For python_int, content must be of type int")
  else if fmt = "python_list" ∧ ¬ isPyList c then
    .error (.valueError "For python_list, content must be of type list")
  else if fmt = "python_dict" ∧ ¬ isPyDict c then
    .error (.valueError "For python_dict, content must be of type dict")
  else
    .ok ()

/-- `StreamData(data_format=fmt, content=c, file_name=fname)`: pydantic first
rejects a `data_format` outside the `Literal` tag set, then runs the
model validator; on success the fields are stored as given. -/
def streamDataNew (fmt : String) (c : PyVal) (fname : Option String := none) :
    Except PyError StreamData :=
  if fmt ∈ streamDataFormats then
    match checkContentTypeMatchesFormat fmt c with
    | .ok _ => .ok { data_format := fmt, content := c, file_name := fname }
    | .error e => .error e
  else
    .error (.valueError ("Input should be a valid literal data_format; got " ++ fmt))

/-- Specification-side matching relation between a format tag and the
constructor of its content, written from the spec's tag/content table
(for comparison with the source validator). -/
def specTagMatches (fmt : String) (c : PyVal) : Bool :=
  match c with
  | .dataframeV _ _ => fmt = "dataframe"
  | .pathV _ => fmt = "file_path"
  | .bytesV _ => fmt = "file_buffer"
  | .strV _ => fmt = "python_string"
  | .intV _ => fmt = "python_int"
  | .listV _ => fmt = "python_list"
  | .dictV _ => fmt = "python_dict"
  | .emailMessageV _ => fmt = "email_message"

/-! ## DestinationResponse and the load handlers (`loader.py`) -/

/-- `DestinationResponse` (`models.py`): outcome record of one load step. -/
structure DestinationResponse where
  destination_name : String
  status : String
  message : String
  records_processed : Option Nat := none
  deriving DecidableEq, Repr

/-- The exception from `to_addrs = cls._resolve_email_recipients(recipients,
step_outputs)` in `_smtp_load`: `_resolve_email_recipients` is declared
`@classmethod` but its underlying function takes only
`(recipients, step_outputs)`, so the bound call receives three positional
arguments (`cls` plus the two written at the call site) and raises
`TypeError` unconditionally — before the function body (which itself has no
`return` statement) could ever run. -/
def smtpResolveRecipientsError : PyError :=
  .typeError "_resolve_email_recipients takes 2 positional arguments but 3 were given"

/-- The call site of `_resolve_email_recipients` inside `_smtp_load`:
it raises the arity `TypeError` for every input. -/
def resolveEmailRecipientsCall : Except PyError (Option (List String)) :=
  .error smtpResolveRecipientsError

/-- The format guard statement of `_smtp_load` taken in isolation:
`if data_format not in ("email_message"): raise ValueError(...)`.
`("email_message")` is a parenthesized string, not a tuple, so the
membership test is contiguous-substring membership in the string
`"email_message"`; the guard passes (does not raise) exactly when
`data_format` is such a substring. Inside the handler this statement is
unreachable (see `smtpLoad`). -/
def smtpFormatGuard (data_format : String) : Except PyError Unit :=
  if ¬ strIn data_format "email_message" then
    .error (.valueError
      ("Load destinations with protocol=smtp require StreamData.data_format=email_message; got "
        ++ data_format ++ "; check previous transform steps"))
  else .ok ()

/-- `Loader._smtp_load`, in source order: after the config reads, the
recipient-resolution call raises the arity `TypeError` unconditionally, so
everything below it — `email_message = step_outputs[input.content]`
(`KeyError` on a missing key), the `data_format` read, the format guard,
and the `try`-wrapped SMTP send — is dead code. Those statements are kept
here behind the raising call, exactly as they sit in the source; `send`
carries the transport outcome (including the `send_errors`-driven `raise`)
the `try` would convert into a failure response if it were reachable. -/
def smtpLoad (destName stepName : String)
    (inputContentKey inputDataFormat : String)
    (outs : List (String × StreamData))
    (send : Except String Unit) : Except PyError DestinationResponse :=
  match resolveEmailRecipientsCall with
  | .error e => .error e
  | .ok _to_addrs =>
    match dictGet outs inputContentKey with
    | none => .error (.keyError inputContentKey)
    | some _email_message =>
      match smtpFormatGuard inputDataFormat with
      | .error e => .error e
      | .ok _ =>
        match send with
        | .error e =>
          .ok { destination_name := destName, status := "failure",
                message := "LOAD FAILED: Email message " ++ stepName
                  ++ " failed to send: " ++ e,
                records_processed := none }
        | .ok _ =>
          .ok { destination_name := destName, status := "success",
                message := "LOAD SUCCESSFUL: Email message " ++ stepName ++ " sent",
                records_processed := some 1 }

/-- `Loader._share_load`. `load_data = step_outputs[input]` and the
`remote_file` path computation run before the `try` (`KeyError` escapes);
the format guard (here a genuine two-element tuple membership) and the
file transfer are inside the `try`, so any exception there becomes a
failure `DestinationResponse`. `transfer` carries the `shutil` copy outcome. -/
def shareLoad (destName mountPath remoteDir : String) (inputKey : String)
    (outs : List (String × StreamData))
    (transfer : Except String Unit) : Except PyError DestinationResponse :=
  match dictGet outs inputKey with
  | none => .error (.keyError inputKey)
  | some load_data =>
    let remote_file := mountPath ++ "/" ++ remoteDir ++ "/"
      ++ load_data.file_name.getD "None"
    let attempt : Except String Unit :=
      if ¬ (load_data.data_format = "file_buffer" ∨ load_data.data_format = "file_path") then
        .error ("Load destinations with protocol=smb require StreamData.data_format=file_path or file_buffer; got "
          ++ load_data.data_format ++ "; check previous transform steps")
      else transfer
    match attempt with
    | .error e =>
      .ok { destination_name := destName, status := "failure",
            message := "LOAD FAILED: File " ++ remote_file ++ " not loaded to "
              ++ destName ++ ": " ++ e,
            records_processed := none }
    | .ok _ =>
      .ok { destination_name := destName, status := "success",
            message := "LOAD SUCCESSFUL: File " ++ remote_file ++ " loaded to " ++ destName,
            records_processed := some 1 }

/-- `Loader._sftp_load`: identical shape to `_share_load` (the source even
reuses the `protocol='smb'` guard message); the guarded region covers the
format guard and the SFTP transfer. -/
def sftpLoad (destName mountPath remoteDir : String) (inputKey : String)
    (outs : List (String × StreamData))
    (transfer : Except String Unit) : Except PyError DestinationResponse :=
  match dictGet outs inputKey with
  | none => .error (.keyError inputKey)
  | some load_data =>
    let remote_file := mountPath ++ "/" ++ remoteDir ++ "/"
      ++ load_data.file_name.getD "None"
    let attempt : Except String Unit :=
      if ¬ (load_data.data_format = "file_buffer" ∨ load_data.data_format = "file_path") then
        .error ("Load destinations with protocol=smb require StreamData.data_format=file_path or file_buffer; got "
          ++ load_data.data_format ++ "; check previous transform steps")
      else transfer
    match attempt with
    | .error e =>
      .ok { destination_name := destName, status := "failure",
            message := "LOAD FAILED: File " ++ remote_file ++ " not loaded to "
              ++ destName ++ ": " ++ e,
            records_processed := none }
    | .ok _ =>
      .ok { destination_name := destName, status := "success",
            message := "LOAD SUCCESSFUL: File " ++ remote_file ++ " loaded to " ++ destName,
            records_processed := some 1 }

/-- `Loader.protocol_to_method` keys. -/
def loadProtocolToMethod : List (String × String) :=
  [("smtp", "_smtp_load"), ("fileshare", "_share_load"),
   ("sftp", "_sftp_load"), ("google_drive", "_drive_load")]

/-! ## Extractor dispatch and query-parameter resolution (`extractor.py`) -/

/-- `Extractor.protocol_to_method`: the extract-side dispatch table as
assigned at the bottom of `extractor.py`. It registers only `sql`,
`fileshare` and `google_drive`; `sftp` and `smb` are absent even though
`_sftp_extract` exists. -/
def extractProtocolToMethod : List (String × String) :=
  [("sql", "_sql_extract"), ("fileshare", "_fileshare_extract"),
   ("google_drive", "_drive_extract")]

/-- `Extractor.extract`: `extract_method = cls.protocol_to_method[protocol]`
(a plain dict subscript, so an unregistered tag raises `KeyError(protocol)`),
then the handler runs. `handlers` carries each registered handler's outcome
(the handlers perform the I/O and are external collaborators). -/
def extractorExtract (handlers : String → Except PyError StreamData)
    (protocol : String) : Except PyError StreamData :=
  match dictGet extractProtocolToMethod protocol with
  | none => .error (.keyError protocol)
  | some _extract_method => handlers protocol

/-- `Extractor._resolve_query_params`. For each `(key, value)` entry, in
source order: a `step:` prefix resolves `step_outputs[alias].content`
(`KeyError` on a missing alias); then a second, separate `if` tests the
`macro:` prefix (`KeyError` on an unregistered name) — and its `else`
branch, which is attached to the macro test rather than to an `elif`
chain, stores the raw value verbatim, overwriting whatever the `step:`
branch had just resolved. `macroReg` maps a macro name to the value its
zero-argument function returns. -/
def resolveQueryParams (raw : List (String × String))
    (outs : List (String × StreamData))
    (macroReg : List (String × PyVal)) :
    Except PyError (List (String × PyVal)) :=
  go raw []
where
  go : List (String × String) → List (String × PyVal) →
      Except PyError (List (String × PyVal))
  | [], acc => .ok acc
  | (key, value) :: rest, acc =>
    let afterStep : Except PyError (List (String × PyVal)) :=
      if strStartsWith value "step:" then
        match dictGet outs (pyReplace value "step:" "") with
        | none => .error (.keyError (pyReplace value "step:" ""))
        | some sd => .ok (dictSet acc key sd.content)
      else .ok acc
    match afterStep with
    | .error e => .error e
    | .ok acc1 =>
      let afterMacro : Except PyError (List (String × PyVal)) :=
        if strStartsWith value "macro:" then
          match dictGet macroReg (pyReplace value "macro:" "") with
          | none => .error (.keyError (pyReplace value "macro:" ""))
          | some v => .ok (dictSet acc1 key v)
        else .ok (dictSet acc1 key (.strV value))
      match afterMacro with
      | .error e => .error e
      | .ok acc2 => go rest acc2

/-! ## Path-parameter resolution and macros (`datastream2.py`, `macros.py`) -/

/-- `_resolve_path_from_params` (`datastream2.py`). For each parameter the
placeholder is `::name::`; a `macro:` value is looked up with
`macro_reg.get(...)` — an unregistered name leaves the replacement as the
empty string — and the `if replacement_value:` truthiness guard then skips
the substitution entirely, leaving the placeholder in the path with no
error. `macroReg` maps a macro name to its function's return value. -/
def resolvePathFromParams (path : String) (params : List (String × String))
    (macroReg : List (String × PyVal)) : String :=
  params.foldl
    (fun resolved p =>
      let placeholder := "::" ++ p.1 ++ "::"
      let replacement :=
        if strStartsWith p.2 "macro:" then
          match dictGet macroReg (splitColonTail p.2) with
          | some v => pyStr v
          | none => ""
        else p.2
      if replacement = "" then resolved
      else pyReplace resolved placeholder replacement)
    path

/-- A Python `datetime.now()` value, to the precision `macros.py` reads. -/
structure PyDateTime where
  year : Nat
  month : Nat
  day : Nat
  minute : Nat
  deriving DecidableEq, Repr

/-- Zero-padded two-digit field as `strftime` renders it. -/
def pad2 (n : Nat) : String :=
  if n < 10 then "0" ++ toString n else toString n

/-- `cur_date.strftime("%Y%M%D")` as written in `_macro_yyyymmdd`
(`macros.py` and the copy in `datastream2.py`): `%Y` is the year, `%M` is
the MINUTE, and `%D` is the `month/day/two-digit-year` date with slashes. -/
def strftimeYcapMcapDcap (d : PyDateTime) : String :=
  toString d.year ++ pad2 d.minute
    ++ pad2 d.month ++ "/" ++ pad2 d.day ++ "/" ++ pad2 (d.year % 100)

/-- `_macro_yyyymmdd()`: returns the `strftime("%Y%M%D")` rendering of the
current datetime. -/
def macroYyyymmdd (d : PyDateTime) : String :=
  strftimeYcapMcapDcap d

/-! ## Aggregated configuration validation (`data_stream.py`,
`DataStream._validate_config`)

Step 1 (pydantic `Job(**job_dict)`) and the pydantic `Source`/`Destination`/
function constructions of steps 3 and 5 are modelled as succeeding on the
already-typed inputs below; the issue aggregation, the step-3 dict
comprehensions, the `if not issues:` gate in front of step 4, and the final
combined raise are modelled exactly. -/

/-- One extract task as the validator reads it (`task.source`,
`task.dependencies`). -/
structure ExtractTask where
  source : String
  dependencies : List String
  deriving DecidableEq, Repr

/-- One load task as the validator reads it (`task.destination`). -/
structure LoadTask where
  destination : String
  deriving DecidableEq, Repr

/-- The validated job structure the validator iterates over. -/
structure Job where
  extract_tasks : List (String × ExtractTask)
  load_tasks : List (String × LoadTask)
  deriving DecidableEq, Repr

/-- A source config as step 4 reads it (`source_model.type`). -/
structure SourceCfg where
  type : String
  deriving DecidableEq, Repr

/-- `{task.source for task in self.job.extract_tasks.values()}`. -/
def usedSourceNames (job : Job) : List String :=
  (job.extract_tasks.map (fun p => p.2.source)).eraseDups

/-- `{task.destination for task in self.job.load_tasks.values()}`. -/
def usedDestNames (job : Job) : List String :=
  (job.load_tasks.map (fun p => p.2.destination)).eraseDups

/-- Step 2: the undefined-source / undefined-destination issues
(one aggregated message per check, as appended by the source). -/
def missingNameIssues (job : Job) (srcNames destNames : List String) :
    List String :=
  let undefinedSrcs := (usedSourceNames job).filter (fun n => ¬ srcNames.contains n)
  let undefinedDests := (usedDestNames job).filter (fun n => ¬ destNames.contains n)
  (if undefinedSrcs.isEmpty then []
   else ["Job references undefined sources: " ++ String.intercalate ", " undefinedSrcs])
  ++ (if undefinedDests.isEmpty then []
   else ["Job references undefined destinations: " ++ String.intercalate ", " undefinedDests])

/-- The step-3 dict comprehension
`{name: avail[name] for name in used_names}`: a plain subscript per name, so
the first missing name raises `KeyError` — this comprehension sits outside
the `try` block. -/
def lookupAllCfg {α : Type} (names : List String) (avail : List (String × α)) :
    Except PyError (List (String × α)) :=
  match names with
  | [] => .ok []
  | n :: rest =>
    match dictGet avail n with
    | none => .error (.keyError n)
    | some cfg =>
      match lookupAllCfg rest avail with
      | .error e => .error e
      | .ok tail => .ok ((n, cfg) :: tail)

/-- Step 4: the per-task dependency checks, appending one issue per offending
dependency across ALL extract tasks (no per-task short-circuit). -/
def dependencyIssues (job : Job) (sources : List (String × SourceCfg)) :
    List String :=
  job.extract_tasks.foldl
    (fun issues p =>
      let tname := p.1
      let task := p.2
      match dictGet sources task.source with
      | none => issues
      | some sm =>
        if sm.type = "sql" then
          issues ++ (task.dependencies.filter (fun d => ¬ strEndsWith d ".sql")).map
            (fun d => "Extract task " ++ tname ++ " requires .sql files, but got " ++ d)
        else if sm.type = "fileshare" ∨ sm.type = "sftp" then
          issues ++ (task.dependencies.filter
              (fun d => strStartsWith d "/" ∨ strEndsWith d "/")).map
            (fun d => "Extract task " ++ tname
              ++ " requires a relative file path, but got " ++ d)
        else if sm.type = "google_drive" then
          issues ++ (task.dependencies.filter (fun d => d = "")).map
            (fun _ => "Extract task " ++ tname
              ++ " requires a non-empty file name or ID.")
        else issues)
    []

/-- The combined error message of the final report. -/
def combinedIssueMsg (issues : List String) : String :=
  "Configuration has one or more errors: - " ++ String.intercalate " - " issues

/-- `DataStream._validate_config`: collect step-2 issues, run the step-3
lookups (bare `KeyError` escape), run step 4 only `if not issues`, then
raise one combined `ValueError` when any issue was collected. -/
def validateConfig (job : Job) (availSources : List (String × SourceCfg))
    (availDests : List (String × SourceCfg)) : Except PyError Unit :=
  let issues := missingNameIssues job (availSources.map (fun p => p.1))
    (availDests.map (fun p => p.1))
  match lookupAllCfg (usedSourceNames job) availSources with
  | .error e => .error e
  | .ok srcModels =>
    match lookupAllCfg (usedDestNames job) availDests with
    | .error e => .error e
    | .ok _destModels =>
      let issues := issues ++ (if issues.isEmpty then dependencyIssues job srcModels else [])
      if issues.isEmpty then .ok ()
      else .error (.valueError (combinedIssueMsg issues))

/-! ## The pipeline engine (`datastream2.py`, `DataStream.run`) -/

/-- One step as the loop body of `run()` reads it: `step.type` (checked with
substring membership), `step.output`, `step.input`, and the three
collaborator outcomes — `Extractor.extract(step, step_outputs)`,
`step.function(input_data)` and `Loader.load(step, step_outputs)` — as
functions of the `step_outputs` each receives. -/
structure Step where
  type : String
  step_name : String
  protocol : String
  output : String
  input : List String
  extractor : List (String × StreamData) → Except PyError StreamData
  fn : List (String × Option StreamData) →
    Except PyError (List (String × StreamData))
  loader : List (String × StreamData) → Except PyError DestinationResponse

/-- `DataStore` (`models.py`): run metadata plus the operational state.
`end_time_set` records whether `end_time` has been assigned. -/
structure DataStore where
  stream_name : String
  status : String := "running"
  end_time_set : Bool := false
  step_outputs : List (String × StreamData) := []
  dest_responses : List DestinationResponse := []
  deriving DecidableEq, Repr

/-- The `TypeError` from `self.data_store[step.output] = extracted_data`:
`DataStore` in `models.py` is a pydantic `BaseModel` that defines no
`__setitem__`, so item assignment on it raises (and the extract-step models
spell the field `output_alias`, so even the `step.output` read has no
backing field). -/
def dataStoreSetItemError : PyError :=
  .typeError "DataStore object does not support item assignment"

/-- The `if "extract" in step.type:` branch of the loop body. -/
def extractPhase (ds : DataStore) (st : Step) : DataStore × Option PyError :=
  if strIn "extract" st.type then
    match st.extractor ds.step_outputs with
    | .error e => (ds, some e)
    | .ok _extracted_data => (ds, some dataStoreSetItemError)
  else (ds, none)

/-- The `if "transform" in step.type:` branch:
`input_data = {item: step_outputs.get(item) for item in step.input}` (missing
aliases silently become `None`), then `step_outputs.update(step.function(input_data))`. -/
def transformPhase (ds : DataStore) (st : Step) : DataStore × Option PyError :=
  if strIn "transform" st.type then
    match st.fn (st.input.map fun item => (item, dictGet ds.step_outputs item)) with
    | .error e => (ds, some e)
    | .ok output_data =>
      ({ ds with step_outputs := dictUpdate ds.step_outputs output_data }, none)
  else (ds, none)

/-- The `if "load" in step.type:` branch: dispatch the loader and append the
response to `dest_responses`. -/
def loadPhase (ds : DataStore) (st : Step) : DataStore × Option PyError :=
  if strIn "load" st.type then
    match st.loader ds.step_outputs with
    | .error e => (ds, some e)
    | .ok dest_response =>
      ({ ds with dest_responses := ds.dest_responses ++ [dest_response] }, none)
  else (ds, none)

/-- One iteration of the `for step in self.config.steps:` loop: the three
`if` branches in source order, aborting at the first raised exception and
keeping every mutation made before it. -/
def runStep (ds : DataStore) (st : Step) : DataStore × Option PyError :=
  match extractPhase ds st with
  | (ds1, some e) => (ds1, some e)
  | (ds1, none) =>
    match transformPhase ds1 st with
    | (ds2, some e) => (ds2, some e)
    | (ds2, none) => loadPhase ds2 st

/-- The whole loop: iterate in declaration order, stop at the first
exception (which propagates out of the loop with the state reached so far). -/
def runSteps : List Step → DataStore → DataStore × Option PyError
  | [], ds => (ds, none)
  | st :: rest, ds =>
    match runStep ds st with
    | (ds1, some e) => (ds1, some e)
    | (ds1, none) => runSteps rest ds1

/-- The body of `DataStream.run`: after the loop completes, `end_time` is
assigned and `status` becomes `"success"`; nothing in the body ever assigns
`"failed"`, so on an exception the store escapes with its status untouched. -/
def runBody (steps : List Step) (ds : DataStore) : DataStore × Option PyError :=
  match runSteps steps ds with
  | (ds1, some e) => (ds1, some e)
  | (ds1, none) => ({ ds1 with end_time_set := true, status := "success" }, none)

/-- The error escaping `LogAndTerminate.__call__` (`errors.py`): the `except`
block evaluates `self.logger`, but the wrapper instance has no such
attribute (`functools.update_wrapper` copies nothing of the kind from a
plain function), so an `AttributeError` escapes in place of the original
exception and `sys.exit(1)` is never reached. -/
def logAndTerminateLoggerError : PyError :=
  .attributeError "LogAndTerminate object has no attribute logger"

/-- The `@LogAndTerminate()`-wrapped behavior applied to the body's outcome:
a normal return passes through; an exception is caught and replaced by the
wrapper's own `AttributeError`. -/
def logAndTerminateWrap (r : DataStore × Option PyError) :
    DataStore × Option PyError :=
  match r with
  | (ds, none) => (ds, none)
  | (ds, some _e) => (ds, some logAndTerminateLoggerError)

/-- `DataStream.run()` as invoked through its decorator. -/
def run (steps : List Step) (ds : DataStore) : DataStore × Option PyError :=
  logAndTerminateWrap (runBody steps ds)

/-! ## Concrete instances used by the counterexamples and witnesses -/

/-- A sample extracted table, the kind of content a SQL extract produces. -/
def sampleData : StreamData :=
  { data_format := "dataframe", content := .dataframeV ["id", "name"] 3 }

/-- The `get_data` step of the spec's simple-linear-pipeline scenario:
SQL extract against source `db1`, output alias `raw`, handler succeeding. -/
def stepGetData : Step :=
  { type := "extract", step_name := "get_data", protocol := "sql",
    output := "raw", input := [],
    extractor := fun _ => .ok sampleData,
    fn := fun _ => .ok [],
    loader := fun _ => .ok { destination_name := "", status := "success", message := "" } }

/-- The `send_data` step of the same scenario: SFTP load of input `raw`,
handler succeeding. -/
def stepSendData : Step :=
  { type := "load", step_name := "send_data", protocol := "sftp",
    output := "", input := ["raw"],
    extractor := fun _ => .ok sampleData,
    fn := fun _ => .ok [],
    loader := fun _ => .ok { destination_name := "sftp_server", status := "success",
                             message := "LOAD SUCCESSFUL", records_processed := some 1 } }

/-- A transform step whose user function raises. -/
def stepBadTransform : Step :=
  { type := "transform", step_name := "bad_step", protocol := "",
    output := "", input := ["raw"],
    extractor := fun _ => .ok sampleData,
    fn := fun _ => .error (.valueError "boom"),
    loader := fun _ => .ok { destination_name := "", status := "success", message := "" } }

/-- A fresh `DataStore` as `DataStream.__init__` creates it. -/
def storeInit : DataStore := { stream_name := "test_stream" }

/-- A sample file-buffer payload with a file name, as a share/sftp load
consumes it. -/
def sdFileBuffer : StreamData :=
  { data_format := "file_buffer", content := .bytesV [1], file_name := some "r.csv" }

/-- A job with two independent defects in different validation phases:
task `t1` references the undefined source `missing_src`, and task `t2`
(a SQL source) has the non-`.sql` dependency `query.txt`. -/
def jobTwoDefects : Job :=
  { extract_tasks :=
      [("t1", { source := "missing_src", dependencies := ["q.sql"] }),
       ("t2", { source := "db", dependencies := ["query.txt"] })],
    load_tasks := [] }

/-- A job whose referenced sources all exist but which has two dependency
defects in two different tasks. -/
def jobDepDefects : Job :=
  { extract_tasks :=
      [("t1", { source := "db", dependencies := ["query.txt"] }),
       ("t2", { source := "share", dependencies := ["/abs/path"] })],
    load_tasks := [] }

/-- The available sources for `jobDepDefects`. -/
def srcsTwo : List (String × SourceCfg) :=
  [("db", { type := "sql" }), ("share", { type := "fileshare" })]

/-! ## Dictionary lemmas -/

theorem dictGet_dictSet_isSome {α : Type} (d : List (String × α)) (k k2 : String)
    (v : α) (h : (dictGet d k2).isSome) : (dictGet (dictSet d k v) k2).isSome := by
  induction d with
  | nil => simp [dictGet] at h
  | cons p rest ih =>
    obtain ⟨k1, v1⟩ := p
    by_cases hk : k1 = k
    · subst hk
      by_cases hk2 : k1 = k2 <;> simp_all [dictGet, dictSet]
    · by_cases hk2 : k1 = k2 <;> simp_all [dictGet, dictSet]

theorem dictGet_dictUpdate_isSome {α : Type} (u d : List (String × α)) (k : String)
    (h : (dictGet d k).isSome) : (dictGet (dictUpdate d u) k).isSome := by
  induction u generalizing d with
  | nil => simpa [dictUpdate] using h
  | cons p rest ih =>
    simpa [dictUpdate] using
      ih (dictSet d p.1 p.2) (dictGet_dictSet_isSome d p.1 k p.2 h)

/-! ## Engine lemmas: what one loop iteration preserves -/

theorem extractPhase_fst (ds : DataStore) (st : Step) :
    (extractPhase ds st).1 = ds := by
  unfold extractPhase
  split
  · split <;> rfl
  · rfl

theorem transformPhase_status (ds : DataStore) (st : Step) :
    ((transformPhase ds st).1).status = ds.status := by
  unfold transformPhase
  split
  · split <;> rfl
  · rfl

theorem transformPhase_dest (ds : DataStore) (st : Step) :
    ((transformPhase ds st).1).dest_responses = ds.dest_responses := by
  unfold transformPhase
  split
  · split <;> rfl
  · rfl

theorem transformPhase_outputs_isSome (ds : DataStore) (st : Step) (k : String)
    (h : (dictGet ds.step_outputs k).isSome) :
    (dictGet ((transformPhase ds st).1).step_outputs k).isSome := by
  unfold transformPhase
  split
  · split
    · exact h
    · exact dictGet_dictUpdate_isSome _ _ _ h
  · exact h

theorem transformPhase_snd_some (ds ds2 : DataStore) (st : Step) (e : PyError)
    (h : transformPhase ds st = (ds2, some e)) : ds2 = ds := by
  unfold transformPhase at h
  split at h
  · split at h
    · exact (Prod.mk.injEq _ _ _ _ ▸ h).1.symm
    · simp at h
  · simp at h

theorem loadPhase_status (ds : DataStore) (st : Step) :
    ((loadPhase ds st).1).status = ds.status := by
  unfold loadPhase
  split
  · split <;> rfl
  · rfl

theorem loadPhase_snd_some (ds ds2 : DataStore) (st : Step) (e : PyError)
    (h : loadPhase ds st = (ds2, some e)) : ds2 = ds := by
  unfold loadPhase at h
  split at h
  · split at h
    · exact (Prod.mk.injEq _ _ _ _ ▸ h).1.symm
    · simp at h
  · simp at h

theorem runStep_status (ds : DataStore) (st : Step) :
    ((runStep ds st).1).status = ds.status := by
  unfold runStep
  rcases hE : extractPhase ds st with ⟨ds1, oe⟩
  have hds1 : ds1 = ds := by
    have h := extractPhase_fst ds st
    rw [hE] at h
    exact h
  subst hds1
  cases oe with
  | some e => simp [hE]
  | none =>
    simp only [hE]
    rcases hT : transformPhase ds1 st with ⟨dsT, oT⟩
    have hTs : dsT.status = ds1.status := by
      have h := transformPhase_status ds1 st
      rw [hT] at h
      exact h
    cases oT with
    | some e => simp [hT, hTs]
    | none =>
      simp only [hT]
      have h := loadPhase_status dsT st
      rw [h, hTs]

theorem runStep_fail_state (ds ds2 : DataStore) (st : Step) (e : PyError)
    (h : runStep ds st = (ds2, some e)) :
    ds2.status = ds.status ∧ ds2.dest_responses = ds.dest_responses ∧
    (∀ k, (dictGet ds.step_outputs k).isSome →
      (dictGet ds2.step_outputs k).isSome) := by
  unfold runStep at h
  rcases hE : extractPhase ds st with ⟨ds1, oe⟩
  have hds1 : ds1 = ds := by
    have h2 := extractPhase_fst ds st
    rw [hE] at h2
    exact h2
  subst hds1
  simp only [hE] at h
  cases oe with
  | some e1 =>
    have h2 : ds1 = ds2 := (Prod.mk.injEq _ _ _ _ ▸ h).1
    subst h2
    exact ⟨rfl, rfl, fun k hk => hk⟩
  | none =>
    simp only [] at h
    rcases hT : transformPhase ds1 st with ⟨dsT, oT⟩
    simp only [hT] at h
    have hTs : dsT.status = ds1.status := by
      have h2 := transformPhase_status ds1 st
      rw [hT] at h2
      exact h2
    have hTd : dsT.dest_responses = ds1.dest_responses := by
      have h2 := transformPhase_dest ds1 st
      rw [hT] at h2
      exact h2
    have hTo : ∀ k, (dictGet ds1.step_outputs k).isSome →
        (dictGet dsT.step_outputs k).isSome := by
      intro k hk
      have h2 := transformPhase_outputs_isSome ds1 st k hk
      rw [hT] at h2
      exact h2
    cases oT with
    | some e1 =>
      have h2 : dsT = ds2 := (Prod.mk.injEq _ _ _ _ ▸ h).1
      subst h2
      exact ⟨hTs, hTd, hTo⟩
    | none =>
      have h2 : ds2 = dsT := loadPhase_snd_some dsT ds2 st e h
      subst h2
      exact ⟨hTs, hTd, hTo⟩

theorem runSteps_append (a b : List Step) (ds : DataStore) :
    runSteps (a ++ b) ds =
      match runSteps a ds with
      | (d, some e) => (d, some e)
      | (d, none) => runSteps b d := by
  induction a generalizing ds with
  | nil => simp [runSteps]
  | cons st rest ih =>
    simp only [List.cons_append, runSteps]
    rcases h : runStep ds st with ⟨ds1, oe⟩
    cases oe <;> simp [ih]

theorem runSteps_status (a : List Step) (ds : DataStore) :
    ((runSteps a ds).1).status = ds.status := by
  induction a generalizing ds with
  | nil => rfl
  | cons st rest ih =>
    simp only [runSteps]
    rcases h : runStep ds st with ⟨ds1, oe⟩
    have hst : ds1.status = ds.status := by
      have := runStep_status ds st
      rw [h] at this
      exact this
    cases oe with
    | some e => exact hst
    | none =>
      have := ih ds1
      simp only [this, hst]

/-! ## Claim C1 -/

/-- C1 (counterexample): with a one-step pipeline whose transform function
raises, `run()` leaves the run status at `"running"` — it is never set to
`"failed"` (no assignment of `"failed"` exists in `datastream2.py`) — and
what escapes is the `LogAndTerminate` wrapper's own `AttributeError`, whose
message names neither the failing step `bad_step` nor the step type, so the
failure is not propagated wrapped with the step name and step type. -/
theorem c1_counterexample :
    (run [stepBadTransform] storeInit).1.status = "running" ∧
    ¬ (run [stepBadTransform] storeInit).1.status = "failed" ∧
    (run [stepBadTransform] storeInit).2 = some logAndTerminateLoggerError ∧
    strIn "bad_step" (pyErrMsg logAndTerminateLoggerError) = false ∧
    strIn "transform" (pyErrMsg logAndTerminateLoggerError) = false := by
  decide

/-- C1 (amended): when a step raises after a prefix of successful steps,
`run()` stops iterating (the suffix never executes), the `DataStore` keeps
its status unchanged (so `"running"`, never `"failed"`), keeps every
`dest_responses` entry produced before the failure and gains none for
un-run steps, and retains every `step_outputs` key present before the
failure; the escaping error is the wrapper's `AttributeError`, not the
original failure wrapped with the step name and type. -/
theorem c1_run_failure_partial_state
    (steps1 : List Step) (st : Step) (steps2 : List Step)
    (ds ds1 ds2 : DataStore) (e : PyError)
    (h1 : runSteps steps1 ds = (ds1, none))
    (h2 : runStep ds1 st = (ds2, some e)) :
    run (steps1 ++ st :: steps2) ds = (ds2, some logAndTerminateLoggerError) ∧
    ds2.status = ds.status ∧
    ds2.dest_responses = ds1.dest_responses ∧
    (∀ k, (dictGet ds1.step_outputs k).isSome →
      (dictGet ds2.step_outputs k).isSome) := by
  have hrun : runSteps (steps1 ++ st :: steps2) ds = (ds2, some e) := by
    rw [runSteps_append, h1]
    simp [runSteps, h2]
  have hfail := runStep_fail_state ds1 ds2 st e h2
  have hs1 : ds1.status = ds.status := by
    have h := runSteps_status steps1 ds
    rw [h1] at h
    exact h
  refine ⟨?_, ?_, hfail.2.1, hfail.2.2⟩
  · simp [run, runBody, hrun, logAndTerminateWrap]
  · rw [hfail.1, hs1]

/-- C1 witness: the amended theorem applied to the concrete pipeline
`[bad transform, sftp load]`. -/
theorem c1_run_failure_partial_state_witness :
    runSteps [] storeInit = (storeInit, none) ∧
    runStep storeInit stepBadTransform = (storeInit, some (.valueError "boom")) ∧
    run ([] ++ stepBadTransform :: [stepSendData]) storeInit =
      (storeInit, some logAndTerminateLoggerError) := by
  refine ⟨rfl, by decide, ?_⟩
  exact (c1_run_failure_partial_state [] stepBadTransform [stepSendData]
    storeInit storeInit storeInit (.valueError "boom") rfl (by decide)).1

/-! ## Claim C2 -/

/-- C2: in the spec's simple-linear-pipeline scenario (SQL extract with
output alias `raw`, then SFTP load of input `raw`, both handlers
succeeding), `run()`'s body raises the item-assignment `TypeError` at the
extract step's store (`self.data_store[step.output] = ...` on the pydantic
`DataStore`, which has no `__setitem__`): the run never reaches status
`"success"`, `end_time` is never set, `step_outputs` never maps `"raw"`,
and `dest_responses` stays empty. -/
theorem c2_scenario_run_raises :
    runBody [stepGetData, stepSendData] storeInit =
      (storeInit, some dataStoreSetItemError) ∧
    (runBody [stepGetData, stepSendData] storeInit).1.status ≠ "success" ∧
    (runBody [stepGetData, stepSendData] storeInit).1.end_time_set = false ∧
    dictGet (runBody [stepGetData, stepSendData] storeInit).1.step_outputs "raw" = none ∧
    (runBody [stepGetData, stepSendData] storeInit).1.dest_responses = [] := by
  decide

/-! ## Claim C3 -/

/-- C3: resolving `{"p": "step:raw"}` against `step_outputs` that contains
`"raw"` yields the RAW string `"step:raw"`, not the content of the stored
`StreamData` — the `else` attached to the separate macro `if` overwrites the
resolved content — while a reference to an alias that is absent from
`step_outputs` does raise a hard `KeyError` (the hard-failure half of the
claim holds; the substitution half does not). -/
theorem c3_step_param_overwritten :
    resolveQueryParams [("p", "step:raw")] [("raw", sampleData)] [] =
      .ok [("p", PyVal.strV "step:raw")] ∧
    sampleData.content ≠ PyVal.strV "step:raw" ∧
    resolveQueryParams [("p", "step:missing")] [("raw", sampleData)] [] =
      .error (.keyError "missing") := by
  decide

/-! ## Claim C4 -/

/-- C4 (counterexample): resolving the path parameter `{"d": "macro:NOPE"}`
with `NOPE` absent from the macro registry raises nothing at all — the
resolver returns the path unchanged, with the literal `::d::` placeholder
still present — so an unregistered macro name in a path-parameter map is
silently ignored rather than a hard failure. -/
theorem c4_counterexample :
    resolvePathFromParams "archive/::d::/report.csv" [("d", "macro:NOPE")] [] =
      "archive/::d::/report.csv" ∧
    strIn "::d::" (resolvePathFromParams "archive/::d::/report.csv"
      [("d", "macro:NOPE")] []) = true := by
  decide

/-- C4 (amended): an unregistered macro name is a hard failure only in
query-parameter resolution (`Extractor._resolve_query_params` raises
`KeyError`); in path-parameter resolution (`_resolve_path_from_params`)
the `macro_reg.get` miss leaves the replacement empty and the truthiness
guard skips the substitution, returning the path unchanged with the
placeholder intact and no error. -/
theorem c4_unknown_macro_behavior
    (path pname value key : String) (reg : List (String × PyVal))
    (outs : List (String × StreamData))
    (hm : strStartsWith value "macro:" = true)
    (hs : strStartsWith value "step:" = false)
    (h1 : dictGet reg (splitColonTail value) = none)
    (h2 : dictGet reg (pyReplace value "macro:" "") = none) :
    resolvePathFromParams path [(pname, value)] reg = path ∧
    resolveQueryParams [(key, value)] outs reg =
      .error (.keyError (pyReplace value "macro:" "")) := by
  constructor
  · simp [resolvePathFromParams, hm, h1]
  · simp [resolveQueryParams, resolveQueryParams.go, hs, hm, h2]

/-- C4 witness: the amended theorem at the concrete unregistered macro
`NOPE`. -/
theorem c4_unknown_macro_behavior_witness :
    strStartsWith "macro:NOPE" "macro:" = true ∧
    strStartsWith "macro:NOPE" "step:" = false ∧
    resolvePathFromParams "data/::d::/f.csv" [("d", "macro:NOPE")] [] = "data/::d::/f.csv" ∧
    resolveQueryParams [("k", "macro:NOPE")] [] [] =
      .error (.keyError (pyReplace "macro:NOPE" "macro:" "")) := by
  have h := c4_unknown_macro_behavior "data/::d::/f.csv" "d" "macro:NOPE" "k" [] []
    (by decide) (by decide) rfl rfl
  exact ⟨by decide, by decide, h.1, h.2⟩

/-! ## Claim C5 -/

/-- C5 (counterexample): dispatching an extract step named `send_data` with
the unregistered protocol `ftp` raises `KeyError("ftp")`: the error is hard
and immediate, but its message is just the protocol tag and contains the
step name nowhere, so no step-naming ProtocolError is raised; `sftp` is
likewise absent from the extract-side dispatch table. -/
theorem c5_counterexample :
    extractorExtract (fun _ => .ok sampleData) "ftp" = .error (.keyError "ftp") ∧
    pyErrMsg (.keyError "ftp") = "ftp" ∧
    strIn "send_data" (pyErrMsg (.keyError "ftp")) = false ∧
    dictGet extractProtocolToMethod "sftp" = none := by
  decide

/-- C5 (amended): for every protocol tag not registered in
`Extractor.protocol_to_method`, `Extractor.extract` raises `KeyError`
carrying exactly the protocol tag, immediately and regardless of what any
handler would do (no handler is invoked, so no I/O is attempted); the error
does not name the step. -/
theorem c5_unregistered_protocol_keyerror
    (protocol : String) (handlers : String → Except PyError StreamData)
    (h : dictGet extractProtocolToMethod protocol = none) :
    extractorExtract handlers protocol = .error (.keyError protocol) ∧
    pyErrMsg (.keyError protocol) = protocol := by
  constructor
  · simp [extractorExtract, h]
  · rfl

/-- C5 witness: the amended theorem at protocol `ftp` with a handler that
would report an error if it were ever consulted. -/
theorem c5_unregistered_protocol_keyerror_witness :
    dictGet extractProtocolToMethod "ftp" = none ∧
    extractorExtract (fun _ => .error (.keyError "handler_ran")) "ftp" =
      .error (.keyError "ftp") := by
  refine ⟨by decide, ?_⟩
  exact (c5_unregistered_protocol_keyerror "ftp"
    (fun _ => .error (.keyError "handler_ran")) (by decide)).1

/-! ## Claim C6 -/

/-- C6 (counterexample): `jobTwoDefects` has two independent defects (an
undefined source on `t1`, a non-`.sql` dependency on `t2`), yet validation
raises the bare `KeyError("missing_src")` from the step-3 dict
comprehension — not one combined error enumerating both issues: the message
mentions neither `t2` nor `query.txt` (nor even the step-2 issue text). -/
theorem c6_counterexample :
    validateConfig jobTwoDefects [("db", { type := "sql" })] [] =
      .error (.keyError "missing_src") ∧
    strIn "query.txt" (pyErrMsg (.keyError "missing_src")) = false ∧
    strIn "t2" (pyErrMsg (.keyError "missing_src")) = false ∧
    strIn "undefined" (pyErrMsg (.keyError "missing_src")) = false := by
  decide

/-- C6 (amended): aggregation holds only within a phase: when every
referenced source and destination is defined (so the name checks produce no
issue and the config lookups succeed), validation either passes or raises
exactly one combined `ValueError` enumerating every dependency defect
across all steps — it does not stop at the first invalid step; but an
undefined name short-circuits to a bare `KeyError` (see the
counterexample), so defects across phases are not all enumerated. -/
theorem c6_same_phase_aggregation
    (job : Job) (availSources availDests : List (String × SourceCfg))
    (srcModels destModels : List (String × SourceCfg))
    (h0 : missingNameIssues job (availSources.map (fun p => p.1))
      (availDests.map (fun p => p.1)) = [])
    (h1 : lookupAllCfg (usedSourceNames job) availSources = .ok srcModels)
    (h2 : lookupAllCfg (usedDestNames job) availDests = .ok destModels) :
    validateConfig job availSources availDests =
      (if (dependencyIssues job srcModels).isEmpty then .ok ()
       else .error (.valueError (combinedIssueMsg (dependencyIssues job srcModels)))) := by
  simp [validateConfig, h0, h1, h2]

set_option maxRecDepth 4000 in
/-- C6 witness: the amended theorem on `jobDepDefects` (all names defined,
two dependency defects in two different tasks); the single combined error
enumerates both. -/
theorem c6_same_phase_aggregation_witness :
    missingNameIssues jobDepDefects (srcsTwo.map (fun p => p.1))
      (([] : List (String × SourceCfg)).map (fun p => p.1)) = [] ∧
    (dependencyIssues jobDepDefects srcsTwo).length = 2 ∧
    strIn "t1" (combinedIssueMsg (dependencyIssues jobDepDefects srcsTwo)) = true ∧
    strIn "t2" (combinedIssueMsg (dependencyIssues jobDepDefects srcsTwo)) = true ∧
    validateConfig jobDepDefects srcsTwo [] =
      .error (.valueError (combinedIssueMsg (dependencyIssues jobDepDefects srcsTwo))) := by
  refine ⟨by decide, by decide, by decide, by decide, ?_⟩
  have h := c6_same_phase_aggregation jobDepDefects srcsTwo [] srcsTwo []
    (by decide) (by decide) rfl
  rw [h]
  decide

/-! ## Claim C7 -/

/-- C7 (counterexample): the spec's tag set includes `email-message`, but
`StreamData` defines no such tag: constructing a StreamData whose
`data_format` is `email_message` with a matching email-message content is
rejected outright by the `Literal` field check, so the round-trip required
by the claim fails for that tag (and no `EnvelopeMismatchError` class is
involved anywhere — the validator raises plain `ValueError`). -/
theorem c7_counterexample :
    specTagMatches "email_message" (.emailMessageV "hello") = true ∧
    streamDataNew "email_message" (.emailMessageV "hello") =
      .error (.valueError "Input should be a valid literal data_format; got email_message") := by
  decide

/-- C7 (amended): for each of the seven tags the code actually defines
(`dataframe`, `file_path`, `file_buffer`, `python_string`, `python_int`,
`python_list`, `python_dict`), constructing a StreamData with content whose
concrete type matches the tag succeeds and stores the content unchanged
(lossless round-trip), and constructing with any mismatched content raises
`ValueError` at construction time. -/
theorem c7_envelope_invariant (fmt : String) (c : PyVal) (fname : Option String)
    (h : fmt ∈ streamDataFormats) :
    (specTagMatches fmt c = true →
      streamDataNew fmt c fname =
        .ok { data_format := fmt, content := c, file_name := fname }) ∧
    (specTagMatches fmt c = false →
      ∃ m, streamDataNew fmt c fname = .error (.valueError m)) := by
  fin_cases h <;> cases c <;>
    refine ⟨fun hx => ?_, fun hx => ?_⟩ <;>
      first
      | rfl
      | exact ⟨_, rfl⟩
      | simp [specTagMatches] at hx

/-- C7 witness: the amended theorem at the `dataframe` tag, once with
matching content (round-trip) and once with a mismatched string content
(construction-time error). -/
theorem c7_envelope_invariant_witness :
    "dataframe" ∈ streamDataFormats ∧
    streamDataNew "dataframe" (PyVal.dataframeV ["a"] 1) (some "r.csv") =
      .ok { data_format := "dataframe", content := PyVal.dataframeV ["a"] 1,
            file_name := some "r.csv" } ∧
    (∃ m, streamDataNew "dataframe" (PyVal.strV "oops") none =
      .error (.valueError m)) := by
  refine ⟨by decide, ?_, ?_⟩
  · exact (c7_envelope_invariant "dataframe" (PyVal.dataframeV ["a"] 1)
      (some "r.csv") (by decide)).1 (by decide)
  · exact (c7_envelope_invariant "dataframe" (PyVal.strV "oops")
      none (by decide)).2 (by decide)

/-! ## Claim C8 -/

/-- C8: at the datetime 2026-10-12 00:05, the `YYYYMMDD` macro evaluates
`strftime("%Y%M%D")` to `"20260510/12/26"` (year, MINUTE, then
`month/day/two-digit-year` with slashes), so path resolution for
`archive/::date::/report.csv` with `{"date": "macro:YYYYMMDD"}` produces
`archive/20260510/12/26/report.csv`: the placeholder is substituted, but
the middle segment is 14 characters containing slashes, and no eight-digit
date segment exists between `archive/` and `/report.csv`. -/
theorem c8_yyyymmdd_not_eight_digits :
    macroYyyymmdd ⟨2026, 10, 12, 5⟩ = "20260510/12/26" ∧
    (macroYyyymmdd ⟨2026, 10, 12, 5⟩).length = 14 ∧
    strIn "/" (macroYyyymmdd ⟨2026, 10, 12, 5⟩) = true ∧
    resolvePathFromParams "archive/::date::/report.csv"
      [("date", "macro:YYYYMMDD")]
      [("YYYYMMDD", .strV (macroYyyymmdd ⟨2026, 10, 12, 5⟩))] =
      "archive/20260510/12/26/report.csv" ∧
    strIn "::date::" (resolvePathFromParams "archive/::date::/report.csv"
      [("date", "macro:YYYYMMDD")]
      [("YYYYMMDD", .strV (macroYyyymmdd ⟨2026, 10, 12, 5⟩))]) = false ∧
    ¬ ∃ core : String,
      "archive/20260510/12/26/report.csv" = "archive/" ++ core ++ "/report.csv" ∧
      core.length = 8 := by
  refine ⟨by decide, by decide, by decide, by decide, by decide, ?_⟩
  rintro ⟨core, heq, hlen⟩
  have h := congrArg String.length heq
  rw [String.length_append, String.length_append] at h
  have h1 : ("archive/20260510/12/26/report.csv" : String).length = 33 := by decide
  have h2 : ("archive/" : String).length = 8 := by decide
  have h3 : ("/report.csv" : String).length = 11 := by decide
  omega


/-! ## Claim C9 -/

/-- C9 (counterexample): the smtp handler raises out of the handler even
with a perfectly healthy transport and an input present under its key with
the very format the handler's docstring expects: the
`_resolve_email_recipients` call raises its arity `TypeError`
unconditionally, so no `DestinationResponse` is ever returned — a failing
(indeed, any) smtp load handler raises to the engine rather than catching
and reporting failure. -/
theorem c9_counterexample :
    smtpLoad "mail_server" "send_report" "report" "email_message"
      [("report", sampleData)] (.ok ()) =
      .error smtpResolveRecipientsError := by
  decide

/-- C9 (amended): only for the smb/fileshare and sftp handlers are
exceptions raised inside the `try` block (the format guard and the file
transfer) caught and converted into a `DestinationResponse` with status
`failure` whose `destination_name` is the destination and whose message
embeds the cause; code before the `try` raises out of those handlers (the
`step_outputs` input lookup raises `KeyError` on a missing alias), and the
smtp handler never reaches its `try` at all — its recipient-resolution
call raises `TypeError` unconditionally, so it raises to the engine on
every input, whatever the send outcome would have been. -/
theorem c9_try_block_failures_captured
    (destName stepName mountPath remoteDir key fmt : String)
    (outs : List (String × StreamData)) (sd : StreamData) (e : String)
    (hk : dictGet outs key = some sd)
    (hsd : sd.data_format = "file_buffer" ∨ sd.data_format = "file_path") :
    shareLoad destName mountPath remoteDir key outs (.error e) =
      .ok { destination_name := destName, status := "failure",
            message := "LOAD FAILED: File "
              ++ (mountPath ++ "/" ++ remoteDir ++ "/" ++ sd.file_name.getD "None")
              ++ " not loaded to " ++ destName ++ ": " ++ e,
            records_processed := none } ∧
    sftpLoad destName mountPath remoteDir key outs (.error e) =
      .ok { destination_name := destName, status := "failure",
            message := "LOAD FAILED: File "
              ++ (mountPath ++ "/" ++ remoteDir ++ "/" ++ sd.file_name.getD "None")
              ++ " not loaded to " ++ destName ++ ": " ++ e,
            records_processed := none } ∧
    smtpLoad destName stepName key fmt outs (.error e) =
      .error smtpResolveRecipientsError := by
  obtain h | h := hsd <;>
    exact ⟨by simp [shareLoad, hk, h], by simp [sftpLoad, hk, h], rfl⟩

/-- C9 witness: the amended theorem on a concrete file-buffer payload with
a failing transfer (captured by the share handler) and a failing send
(never reached by the smtp handler, which raises its `TypeError` instead). -/
theorem c9_try_block_failures_captured_witness :
    dictGet [("raw", sdFileBuffer)] "raw" = some sdFileBuffer ∧
    shareLoad "share_dest" "/mnt" "reports" "raw"
      [("raw", sdFileBuffer)] (.error "disk full") =
      .ok { destination_name := "share_dest", status := "failure",
            message := "LOAD FAILED: File /mnt/reports/r.csv not loaded to share_dest: disk full",
            records_processed := none } ∧
    smtpLoad "mail_server" "send_report" "raw" "email_message"
      [("raw", sdFileBuffer)] (.error "connection refused") =
      .error smtpResolveRecipientsError := by
  have h := c9_try_block_failures_captured "share_dest" "send_report" "/mnt"
    "reports" "raw" "email_message" [("raw", sdFileBuffer)] sdFileBuffer
    "disk full" rfl (Or.inl rfl)
  have h2 := c9_try_block_failures_captured "mail_server" "send_report" "/mnt"
    "reports" "raw" "email_message" [("raw", sdFileBuffer)] sdFileBuffer
    "connection refused" rfl (Or.inl rfl)
  refine ⟨rfl, ?_, ?_⟩
  · rw [h.1]
    rfl
  · rw [h2.2.2]

/-! ## Claim C10 -/

/-- C10 (counterexample): at a concrete valid StreamData input (format
`dataframe`, present under its key, healthy transport), `_smtp_load`
raises the recipient-resolution arity `TypeError`, not a `ValueError`:
the format guard never runs, so the claim's conclusion that the guard
raises `ValueError` for every valid StreamData input is false of the
program. -/
theorem c10_counterexample :
    smtpLoad "mail_server" "send_data" "report" "dataframe"
      [("report", sampleData)] (.ok ()) =
      .error smtpResolveRecipientsError ∧
    isValueErr smtpResolveRecipientsError = false := by
  decide

/-- C10 (amended): the guard expression `data_format not in
("email_message")` is indeed substring membership in the string
`"email_message"` (no tuple is involved), and no tag constructible under
StreamData's validator is such a substring, so the guard statement, taken
in isolation, would raise `ValueError` for every valid format; but inside
`_smtp_load` the guard is unreachable — the preceding
`_resolve_email_recipients` call raises `TypeError` unconditionally — so
the handler raises `TypeError` (never the guard's `ValueError`) for every
input, and the send path is unreachable for every envelope, valid or not. -/
theorem c10_smtp_guard_analysis (fmt : String)
    (hfmt : fmt ∈ streamDataFormats) :
    strIn fmt "email_message" = false ∧
    smtpFormatGuard fmt =
      .error (.valueError
        ("Load destinations with protocol=smtp require StreamData.data_format=email_message; got "
          ++ fmt ++ "; check previous transform steps")) ∧
    (∀ (destName stepName key : String) (outs : List (String × StreamData))
      (send : Except String Unit),
      smtpLoad destName stepName key fmt outs send =
        .error smtpResolveRecipientsError) := by
  have hg : strIn fmt "email_message" = false := by
    fin_cases hfmt <;> decide
  refine ⟨hg, by simp [smtpFormatGuard, hg], ?_⟩
  intro destName stepName key outs send
  rfl

/-- C10 witness: the analysis at the `dataframe` format — not a substring
of `"email_message"`, guard-in-isolation raises `ValueError`, and the
handler itself raises the arity `TypeError` even with a healthy transport. -/
theorem c10_smtp_guard_analysis_witness :
    "dataframe" ∈ streamDataFormats ∧
    strIn "dataframe" "email_message" = false ∧
    smtpFormatGuard "dataframe" =
      .error (.valueError
        ("Load destinations with protocol=smtp require StreamData.data_format=email_message; got "
          ++ "dataframe" ++ "; check previous transform steps")) ∧
    smtpLoad "mail_server" "send_data" "report" "dataframe"
      [("report", sampleData)] (.ok ()) =
      .error smtpResolveRecipientsError := by
  have h := c10_smtp_guard_analysis "dataframe" (by decide)
  exact ⟨by decide, h.1, h.2.1,
    h.2.2 "mail_server" "send_data" "report" [("report", sampleData)] (.ok ())⟩

end DataBridge
